import Mathlib

set_option maxRecDepth 1000000

/-!
Verification of the HYROX-Pace mobile app (TypeScript sources) against its
natural-language specification.

The JavaScript `number` type is IEEE-754 binary64.  We embed it shallowly as
the type `D` below: the exact rational value of a finite double, kept in the
canonical form `m * 2^e` with `|m| ∈ [2^52, 2^53)` (or `m = 0`), so that
structural equality of canonical values coincides with value equality.  Every
arithmetic operation of the source (`+`, `-`, `*`, `/` on doubles) is embedded
as the exact rational operation followed by correct rounding to the nearest
double (ties to even), exactly as IEEE-754 prescribes.  `Math.round` is, per
ECMA-262, the mathematically nearest integer with ties toward +infinity, and
is embedded exactly on the rational value of its argument.

The model covers normal finite doubles of magnitude at least `2^-64`, which
includes every value computed by this program; overflow, subnormals, NaN and
signed zero do not arise in the verified code paths (where a JS division by
zero would yield Infinity/NaN we note it in a comment and prove nothing about
the affected field).

All definitions are translated from the repository sources:
  - src/mobile/src/lib/api.ts            (mock simulation, runSimulation)
  - src/mobile/src/lib/RedlineTracker.ts (redline detector, RaceTrackMapper)
  - src/mobile/src/store/raceStore.ts    (live race timer state machine)
  - the dashboard store and CoachEngine modules
Presentation-only fields of the returned records (display strings, insights,
execution cues, ids built from `Date.now()`) are omitted; every field any
claim mentions is embedded.
-/

namespace HyroxPace

/-- Exact value of a finite binary64 number, canonically `m * 2^e` with
`|m| ∈ [2^52, 2^53)` or `m = 0, e = 0`.  All `D` values produced by the
operations below are canonical, so `DecidableEq` is value equality. -/
structure D where
  m : ℤ
  e : ℤ
  deriving DecidableEq

/-- Fuel-based floor of `log2 n` for `n ≥ 1` (fuel-driven so that the kernel
can evaluate it; 4096 fuel covers every magnitude the program produces). -/
def nlog2 : ℕ → ℕ → ℕ
  | 0, _ => 0
  | f+1, n => if n ≤ 1 then 0 else nlog2 f (n / 2) + 1

/-- Round the exact rational `num / den` (`den ≠ 0`) to the nearest binary64
value, ties to even: the IEEE-754 rounding every double operation performs.
The exponent is located by scaling with `2^64`, which is exact for magnitudes
at least `2^-64`. -/
def mkD (num den : ℤ) : D :=
  if num = 0 then ⟨0, 0⟩
  else
    let s : ℤ := if num * den < 0 then -1 else 1
    let a := num.natAbs
    let b := den.natAbs
    let e : ℤ := (nlog2 4096 ((a * 2^64) / b) : ℤ) - 64
    let N : ℕ := if 0 ≤ 52 - e then a * 2^(52 - e).toNat else a
    let Dn : ℕ := if 0 ≤ 52 - e then b else b * 2^(e - 52).toNat
    let q := N / Dn
    let r := N % Dn
    let mant : ℕ :=
      if 2*r < Dn then q
      else if Dn < 2*r then q + 1
      else if q % 2 = 0 then q else q + 1
    if mant = 2^53 then ⟨s * 2^52, e - 51⟩ else ⟨s * mant, e - 52⟩

/-- Exact value of a `D` as a fraction `(numerator, positive denominator)`. -/
def toPair (d : D) : ℤ × ℤ :=
  if 0 ≤ d.e then (d.m * ((2^d.e.toNat : ℕ) : ℤ), 1) else (d.m, ((2^(-d.e).toNat : ℕ) : ℤ))

/-- Double addition: exact sum, then IEEE rounding. -/
def dAdd (x y : D) : D :=
  let p := toPair x
  let q := toPair y
  mkD (p.1 * q.2 + q.1 * p.2) (p.2 * q.2)

/-- Double subtraction: exact difference, then IEEE rounding. -/
def dSub (x y : D) : D :=
  let p := toPair x
  let q := toPair y
  mkD (p.1 * q.2 - q.1 * p.2) (p.2 * q.2)

/-- Double multiplication: exact product, then IEEE rounding. -/
def dMul (x y : D) : D :=
  let p := toPair x
  let q := toPair y
  mkD (p.1 * q.1) (p.2 * q.2)

/-- Double division: exact quotient, then IEEE rounding.  A JS division by
zero yields Infinity/NaN; the model returns `0` there and no theorem relies
on the value of such a division. -/
def dDiv (x y : D) : D :=
  let p := toPair x
  let q := toPair y
  if q.1 = 0 then ⟨0, 0⟩ else mkD (p.1 * q.2) (p.2 * q.1)

/-- The double holding an integer value (exact for `|z| < 2^53`). -/
def dOfInt (z : ℤ) : D := mkD z 1

/-- Exact value comparison `x < y` of two doubles. -/
def dLt (x y : D) : Prop := (toPair x).1 * (toPair y).2 < (toPair y).1 * (toPair x).2

instance (x y : D) : Decidable (dLt x y) := by unfold dLt; infer_instance

/-- Exact value comparison `x ≤ y` of two doubles. -/
def dLe (x y : D) : Prop := (toPair x).1 * (toPair y).2 ≤ (toPair y).1 * (toPair x).2

instance (x y : D) : Decidable (dLe x y) := by unfold dLe; infer_instance

/-- ECMA-262 `Math.round`: nearest integer to the exact value, ties toward
+infinity, i.e. `⌊x + 1/2⌋`. -/
def jsRound (d : D) : ℤ :=
  let p := toPair d
  Int.fdiv (2 * p.1 + p.2) (2 * p.2)

/-- ECMA-262 `Math.floor` on the exact value. -/
def jsFloor (d : D) : ℤ :=
  let p := toPair d
  Int.fdiv p.1 p.2

/-!
Embedding of `src/mobile/src/lib/api.ts`: the mock race simulation
(`generateMockSimulation`) and the mocked `runSimulation` entry point
(`USE_MOCK = true`, so the mock path is the program's behaviour).
-/

/-- The `SledComfort` union of `src/mobile/src/types/index.ts`. -/
inductive SledComfort
  | comfortable
  | manageable
  | soul_crushing
  deriving DecidableEq

/-- The `PerformanceTier` union of `src/mobile/src/types/index.ts`. -/
inductive PerformanceTier
  | elite
  | advanced
  | intermediate
  | beginner
  | recreational
  deriving DecidableEq

/-- The fields of `AthleteProfile` that `generateMockSimulation` reads
(`five_k_time_seconds`, `sled_comfort`, `wall_ball_unbroken_max`); the
remaining profile fields are never read by the verified code paths. -/
structure AthleteProfile where
  five_k_time_seconds : D
  sled_comfort : SledComfort
  wall_ball_unbroken_max : D
  deriving DecidableEq

/-- Tier estimate of api.ts lines 108-111: default `intermediate`, elite
below 20 min, advanced below 24 min, beginner above 30 min. -/
def estimatedTier (p : AthleteProfile) : PerformanceTier :=
  if dLt p.five_k_time_seconds (dOfInt (20 * 60)) then .elite
  else if dLt p.five_k_time_seconds (dOfInt (24 * 60)) then .advanced
  else if dLt (dOfInt (30 * 60)) p.five_k_time_seconds then .beginner
  else .intermediate

/-- Base run time: `Math.round((five_k_time_seconds / 5) * 1.1)`. -/
def baseRunTime (p : AthleteProfile) : ℤ :=
  jsRound (dMul (dDiv p.five_k_time_seconds (dOfInt 5)) (mkD 11 10))

/-- Run degradation factor `1 + (runNum - 1) * 0.05` (double arithmetic). -/
def degradation (runNum : ℕ) : D :=
  dAdd (dOfInt 1) (dMul (dOfInt (runNum - 1)) (mkD 5 100))

/-- Rounded time of run number `runNum` (1-8):
`Math.round(baseRunTime * degradation)`. -/
def runSlotTime (p : AthleteProfile) (runNum : ℕ) : ℤ :=
  jsRound (dMul (dOfInt (baseRunTime p)) (degradation runNum))

/-- Sled station adjustment (lines 141-144): `* 1.3` for `soul_crushing`,
`* 0.85` for `comfortable`, unchanged for `manageable`. -/
def sledAdjusted (p : AthleteProfile) (base : ℤ) : D :=
  match p.sled_comfort with
  | .soul_crushing => dMul (dOfInt base) (mkD 13 10)
  | .comfortable => dMul (dOfInt base) (mkD 85 100)
  | .manageable => dOfInt base

/-- Wall-ball station adjustment (lines 145-148): `* 1.3` below 15 unbroken,
`* 0.85` above 40. -/
def wallBallAdjusted (p : AthleteProfile) (base : ℤ) : D :=
  if dLt p.wall_ball_unbroken_max (dOfInt 15) then dMul (dOfInt base) (mkD 13 10)
  else if dLt (dOfInt 40) p.wall_ball_unbroken_max then dMul (dOfInt base) (mkD 85 100)
  else dOfInt base

/-- Rounded station slot times, in segment order (SkiErg 240, Sled Push 180,
Sled Pull 240, Burpee BJ 300, Row 240, Farmers 120, Lunges 270,
Wall Balls 360, with the sled/wall-ball adjustments). -/
def stationSlotTimes (p : AthleteProfile) : List ℤ :=
  [jsRound (dOfInt 240),
   jsRound (sledAdjusted p 180),
   jsRound (sledAdjusted p 240),
   jsRound (dOfInt 300),
   jsRound (dOfInt 240),
   jsRound (dOfInt 120),
   jsRound (dOfInt 270),
   jsRound (wallBallAdjusted p 360)]

/-- Sum of the 16 rounded slot times of the first loop (lines 132-151). -/
def preRoxzoneTotal (p : AthleteProfile) : ℤ :=
  ((List.range 8).map (fun k => runSlotTime p (k + 1))).sum + (stationSlotTimes p).sum

/-- Roxzone overhead by tier (line 153):
`tier === 'elite' ? 180 : tier === 'advanced' ? 300 : 420`. -/
def roxzoneTime : PerformanceTier → ℤ
  | .elite => 180
  | .advanced => 300
  | _ => 420

/-- The `predictedTotal` accumulator after line 154 (slot times plus roxzone
overhead). -/
def predictedTotal (p : AthleteProfile) : ℤ :=
  preRoxzoneTotal p + roxzoneTime (estimatedTier p)

/-- Goal feasibility classification (lines 160-169). -/
inductive GoalFeasibility
  | too_fast
  | aggressive
  | realistic
  | easy
  deriving DecidableEq

/-- Feasibility from `percentDiff = ((goal - predictedTotal) / predictedTotal)
* 100` (double arithmetic; a `predictedTotal` of zero would give NaN in JS,
and no theorem relies on the feasibility at such an input). -/
def goalFeasibility (pt : ℤ) (g : D) : GoalFeasibility :=
  let timeDiff := dSub g (dOfInt pt)
  let percentDiff := dMul (dDiv timeDiff (dOfInt pt)) (dOfInt 100)
  if dLt percentDiff (dOfInt (-20)) then .too_fast
  else if dLt percentDiff (dOfInt (-10)) then .aggressive
  else if dLt percentDiff (dOfInt 10) then .realistic
  else .easy

/-- The scale factor of goal mode (line 161):
`(goalSeconds − roxzoneTime) / (predictedTotal − roxzoneTime)`, with NO guard
in the source: a zero denominator is divided anyway (Infinity in JS). -/
def scaleFactor (pt rox : ℤ) (g : D) : D :=
  dDiv (dSub g (dOfInt rox)) (dSub (dOfInt pt) (dOfInt rox))

/-- The `predictions` object of the returned `RaceSimulation` (only the
numeric seconds fields; display strings and the confidence score are
presentation-only and omitted). -/
structure Predictions where
  conservative_seconds : D
  likely_seconds : D
  aggressive_seconds : D
  predicted_finish_seconds : ℤ
  deriving DecidableEq

/-- The `risk_analysis` object (numeric and enumerable fields). -/
structure RiskAnalysis where
  danger_runs : List ℤ
  primary_limiter : String
  blow_up_probability : D
  deriving DecidableEq

/-- Simulation mode (line 290): `goal` when a positive goal time is supplied,
else `prediction`. -/
inductive SimMode
  | prediction
  | goal
  deriving DecidableEq

/-- The fields of the returned `RaceSimulation` that the claims mention. -/
structure RaceSimulation where
  mode : SimMode
  goal_time_seconds : Option D
  predictions : Predictions
  risk_analysis : RiskAnalysis
  total_roxzone_time_seconds : ℤ
  estimated_tier : PerformanceTier
  deriving DecidableEq

/-- Goal-mode result record (lines 286-333 with `isGoalMode` true): all three
prediction tiers are the goal time itself. -/
def goalModeSim (p : AthleteProfile) (g : D) : RaceSimulation :=
  let pt := predictedTotal p
  let feas := goalFeasibility pt g
  { mode := .goal
    goal_time_seconds := some g
    predictions :=
      { conservative_seconds := g
        likely_seconds := g
        aggressive_seconds := g
        predicted_finish_seconds := pt }
    risk_analysis :=
      { danger_runs := [5, 8]
        primary_limiter :=
          match feas with
          | .too_fast => "goal_pace"
          | .aggressive => "goal_pace"
          | _ => "execution"
        blow_up_probability :=
          match feas with
          | .too_fast => mkD 8 10
          | .aggressive => mkD 5 10
          | _ => mkD 2 10 }
    total_roxzone_time_seconds := roxzoneTime (estimatedTier p)
    estimated_tier := estimatedTier p }

/-- Prediction-mode result record (lines 286-333 with `isGoalMode` false).
The original non-positive goal value, when one was supplied, is still stored
in `goal_time_seconds` (line 291). -/
def predictionSim (p : AthleteProfile) (goalTimeSeconds : Option D) : RaceSimulation :=
  let pt := predictedTotal p
  let tier := estimatedTier p
  { mode := .prediction
    goal_time_seconds := goalTimeSeconds
    predictions :=
      { conservative_seconds := dOfInt (jsRound (dMul (dOfInt pt) (mkD 105 100)))
        likely_seconds := dOfInt pt
        aggressive_seconds := dOfInt (jsRound (dMul (dOfInt pt) (mkD 95 100)))
        predicted_finish_seconds := pt }
    risk_analysis :=
      { danger_runs := [5, 8]
        primary_limiter :=
          if dLt (dOfInt (26 * 60)) p.five_k_time_seconds then "aerobic" else "pacing"
        blow_up_probability :=
          match tier with
          | .beginner => mkD 45 100
          | .intermediate => mkD 3 10
          | _ => mkD 15 100 }
    total_roxzone_time_seconds := roxzoneTime tier
    estimated_tier := tier }

/-- Embedding of `generateMockSimulation` (api.ts lines 104-334), restricted
to the fields the claims mention.  `isGoalMode` is
`typeof goalTimeSeconds === 'number' && goalTimeSeconds > 0` (line 156). -/
def generateMockSimulation (p : AthleteProfile) (goalTimeSeconds : Option D) : RaceSimulation :=
  match goalTimeSeconds with
  | some g => if dLt (dOfInt 0) g then goalModeSim p g else predictionSim p (some g)
  | none => predictionSim p none

/-- Error taxonomy modelled from the spec (ValidationError for malformed
profiles, ComputationError for the degenerate goal-mode division).  The mock
code path of api.ts contains no `throw` and never constructs either. -/
inductive SimError
  | validation (message : String)
  | computation (message : String)
  deriving DecidableEq

/-- The `SimulationResponse` wrapper of `runSimulation` (the shareable link,
derived from a `Date.now()` id, is presentation-only and omitted). -/
structure SimulationResponse where
  simulation : RaceSimulation
  deriving DecidableEq

/-- Embedding of `runSimulation` (api.ts lines 373-385) with `USE_MOCK =
true`: it always resolves with the mock simulation; the `Except` result type
makes the spec's claimed rejections expressible, and the mock path never
produces `.error`. -/
def runSimulation (p : AthleteProfile) (goalTimeSeconds : Option D) :
    Except SimError SimulationResponse :=
  .ok ⟨generateMockSimulation p goalTimeSeconds⟩

/-!
Embedding of the RaceTrackMapper module (bundled in
`src/mobile/src/lib/RedlineTracker.ts`): `getTrackPosition`.
-/

/-- JS `Math.min(a, b)` on finite doubles: the smaller value. -/
def dMin (x y : D) : D := if dLt x y then x else y

/-- JS `Math.max(a, b)` on finite doubles: the larger value. -/
def dMax (x y : D) : D := if dLt x y then y else x

/-- JS remainder `a % b`: `a - b * trunc(a / b)`, computed exactly (the
remainder of two doubles is always representable); `b = 0` would give NaN in
JS and is never reached here. -/
def jsMod (a b : D) : D :=
  let p := toPair a
  let q := toPair b
  if q.1 = 0 then ⟨0, 0⟩
  else
    let t := Int.tdiv (p.1 * q.2) (q.1 * p.2)
    mkD (p.1 * q.2 - t * (q.1 * p.2)) (p.2 * q.2)

/-- The `SEGMENT_ACTIVITIES` record, keyed by the (numeric) segment index. -/
def SEGMENT_ACTIVITIES : List (D × String) :=
  [(dOfInt 0, "Run 1"), (dOfInt 1, "SkiErg"), (dOfInt 2, "Run 2"),
   (dOfInt 3, "Sled Push"), (dOfInt 4, "Run 3"), (dOfInt 5, "Sled Pull"),
   (dOfInt 6, "Run 4"), (dOfInt 7, "Burpee BJ"), (dOfInt 8, "Run 5"),
   (dOfInt 9, "Row"), (dOfInt 10, "Run 6"), (dOfInt 11, "Farmers Carry"),
   (dOfInt 12, "Run 7"), (dOfInt 13, "Lunges"), (dOfInt 14, "Run 8"),
   (dOfInt 15, "Wall Balls")]

/-- Lookup `SEGMENT_ACTIVITIES[clamped] || 'Unknown'`. -/
def activityAt (q : D) : String := (SEGMENT_ACTIVITIES.lookup q).getD "Unknown"

/-- The `TrackPosition` record returned by `getTrackPosition`. -/
structure TrackPosition where
  stationIndex : ℤ
  lapFraction : D
  continuousPosition : D
  isFinished : Bool
  currentActivity : String
  deriving DecidableEq

/-- Embedding of `getTrackPosition` (RedlineTracker.ts lines 153-182): clamp
to [0, 16], finished branch at 16, otherwise lap/fraction decomposition. -/
def getTrackPosition (segmentsCompleted : D) : TrackPosition :=
  let clamped := dMax (dOfInt 0) (dMin (dOfInt 16) segmentsCompleted)
  if dLe (dOfInt 16) clamped then
    { stationIndex := 7
      lapFraction := dOfInt 1
      continuousPosition := dOfInt 8
      isFinished := true
      currentActivity := "Finished" }
  else
    let lap : ℤ := jsFloor (dDiv clamped (dOfInt 2))
    let withinLap := jsMod clamped (dOfInt 2)
    let lapFraction := if withinLap = dOfInt 0 then dOfInt 0 else mkD 1 2
    { stationIndex := min lap 7
      lapFraction := lapFraction
      continuousPosition := dAdd (dOfInt lap) lapFraction
      isFinished := false
      currentActivity := activityAt clamped }

/-!
Embedding of the RedlineTracker module (`src/mobile/src/lib/RedlineTracker.ts`
lines 26-106).  The mutable module state that the detector reads is
`redlineStartTime : Option ℤ` (milliseconds); `lastSampleTime` is write-only
and `alertCounter` feeds only the alert's id string, so both are omitted.
-/

/-- The fields of a fired `RedlineAlert` that the claims mention (the id and
the `triggered_at`/`resolved_at` ISO strings are omitted). -/
structure RedlineAlert where
  hr_avg : D
  hr_max_pct : D
  duration_seconds : ℤ
  recovery_tip : String
  deriving DecidableEq

/-- Recovery tip selection (RedlineTracker.ts lines 98-106). -/
def getRecoveryTip (hrPctValue : D) (durationSec : ℤ) : String :=
  if dLe (mkD 98 100) hrPctValue then
    "CRITICAL: Walk immediately. Slow deep breaths for 60 seconds before resuming any effort."
  else if 180 < durationSec then
    "Extended redline detected. Walk the first 200m of the next run. Sip water at the next opportunity."
  else
    "HR sustained above 95% for 2+ minutes. Reduce effort by 10% on the next segment. Nasal breathing to bring HR down."

/-- Embedding of `recordHRSample` (lines 26-76): takes the current
`redlineStartTime` state and a sample, returns the new state and the fired
alert, if any.  Timestamps are integer milliseconds as `Date.now()` yields. -/
def recordHRSample (redlineStartTime : Option ℤ) (currentHR maxHR : Option D)
    (now : ℤ) : Option ℤ × Option RedlineAlert :=
  match currentHR, maxHR with
  | some hr, some mx =>
    if dLe mx (dOfInt 0) then (none, none)
    else
      let hrPctValue := dDiv hr mx
      if dLt hrPctValue (mkD 95 100) then (none, none)
      else
        match redlineStartTime with
        | none => (some now, none)
        | some start =>
          if 2 * 60 * 1000 ≤ now - start then
            let durationSec := jsRound (dDiv (dOfInt (now - start)) (dOfInt 1000))
            (none, some
              { hr_avg := hr
                hr_max_pct := hrPctValue
                duration_seconds := durationSec
                recovery_tip := getRecoveryTip hrPctValue durationSec })
          else (some start, none)
  | _, _ => (none, none)

/-- One heart-rate sample fed to the detector. -/
structure HRSample where
  currentHR : Option D
  maxHR : Option D
  time : ℤ
  deriving DecidableEq

/-- Feed a list of samples through `recordHRSample`, threading the
`redlineStartTime` state and collecting the fired alerts in order. -/
def runStream : List HRSample → Option ℤ → Option ℤ × List RedlineAlert
  | [], st => (st, [])
  | s :: rest, st =>
    let step := recordHRSample st s.currentHR s.maxHR s.time
    let tail := runStream rest step.1
    (tail.1, (match step.2 with | some a => [a] | none => []) ++ tail.2)

/-- The timestamps of a sample stream. -/
def sampleTimes (ss : List HRSample) : List ℤ := ss.map HRSample.time

/-- Scenario C input: HR 974 over max 1000 (ratio 0.974), held from t = 0 to
t = 125 s. -/
def scenarioCStream : List HRSample :=
  [{ currentHR := some (dOfInt 974), maxHR := some (dOfInt 1000), time := 0 },
   { currentHR := some (dOfInt 974), maxHR := some (dOfInt 1000), time := 60000 },
   { currentHR := some (dOfInt 974), maxHR := some (dOfInt 1000), time := 125000 }]

/-- The alert Scenario C fires: 125 s duration and the default-severity
recovery tip (ratio below 0.98, duration at most 180 s). -/
def scenarioCAlert : RedlineAlert :=
  { hr_avg := dOfInt 974
    hr_max_pct := dDiv (dOfInt 974) (dOfInt 1000)
    duration_seconds := 125
    recovery_tip := "HR sustained above 95% for 2+ minutes. Reduce effort by 10% on the next segment. Nasal breathing to bring HR down." }

/-- One contiguous 241-second excursion at ratio 0.974: every sample is at or
above the 95% threshold and the first and last samples are 241 s apart. -/
def contiguousStream : List HRSample :=
  [{ currentHR := some (dOfInt 974), maxHR := some (dOfInt 1000), time := 0 },
   { currentHR := some (dOfInt 974), maxHR := some (dOfInt 1000), time := 120000 },
   { currentHR := some (dOfInt 974), maxHR := some (dOfInt 1000), time := 121000 },
   { currentHR := some (dOfInt 974), maxHR := some (dOfInt 1000), time := 241000 }]

/-!
Embedding of the dashboard store (live race tracking for the single user
participant): `initLiveRace`, `advanceSegment`, `undoSegment`.  Elapsed times
are the integer seconds the store's timer supplies.
-/

/-- The `SEGMENT_NAMES` array of the dashboard store. -/
def SEGMENT_NAMES : List String :=
  ["Run 1", "SkiErg", "Run 2", "Sled Push",
   "Run 3", "Sled Pull", "Run 4", "Burpee BJ",
   "Run 5", "Row", "Run 6", "Farmers Carry",
   "Run 7", "Lunges", "Run 8", "Wall Balls"]

/-- JS array indexing `SEGMENT_NAMES[i]`: `undefined` (here `none`) outside
the 0-15 range. -/
def segNameAt (i : ℤ) : Option String :=
  if 0 ≤ i then SEGMENT_NAMES[i.toNat]? else none

/-- The user `Participant` record of the dashboard store. -/
structure Participant where
  id : String
  name : String
  isUser : Bool
  segmentsCompleted : ℤ
  currentSegmentIndex : ℤ
  elapsedSeconds : ℤ
  lastStationName : Option String
  deriving DecidableEq

/-- One recorded `SegmentSplit`. -/
structure SegmentSplit where
  segmentIndex : ℤ
  segmentName : Option String
  elapsedAtCompletion : ℤ
  splitSeconds : ℤ
  deriving DecidableEq

/-- The dashboard store state read and written by the verified actions. -/
structure DashboardState where
  participants : List Participant
  isActive : Bool
  splits : List SegmentSplit
  deriving DecidableEq

/-- The `prevElapsed` computation shared by both actions: the
`elapsedAtCompletion` of the last split, or 0 when no splits remain. -/
def lastElapsed (splits : List SegmentSplit) : ℤ :=
  match splits.getLast? with
  | some sp => sp.elapsedAtCompletion
  | none => 0

/-- Embedding of `initLiveRace`: a fresh user participant and no splits
(`displayName || 'You'` falls back on the empty string). -/
def initLiveRace (displayName : String) : DashboardState :=
  { participants :=
      [{ id := "user"
         name := if displayName = "" then "You" else displayName
         isUser := true
         segmentsCompleted := 0
         currentSegmentIndex := 0
         elapsedSeconds := 0
         lastStationName := segNameAt 0 }]
    isActive := true
    splits := [] }

/-- Embedding of `advanceSegment` (dashboard store lines 68-97): no-op
without a user or at 16 completed segments; otherwise records a split and
advances the user (the store writes `participants: [user']`, replacing the
whole array by the updated user alone). -/
def advanceSegment (currentElapsedSeconds : ℤ) (s : DashboardState) : DashboardState :=
  match s.participants with
  | [] => s
  | user :: _ =>
    if 16 ≤ user.segmentsCompleted then s
    else
      let prevElapsed := lastElapsed s.splits
      let newSplit : SegmentSplit :=
        { segmentIndex := user.segmentsCompleted
          segmentName := segNameAt user.segmentsCompleted
          elapsedAtCompletion := currentElapsedSeconds
          splitSeconds := currentElapsedSeconds - prevElapsed }
      let newCompleted := user.segmentsCompleted + 1
      { s with
        participants :=
          [{ user with
             segmentsCompleted := newCompleted
             currentSegmentIndex := min newCompleted 15
             elapsedSeconds := currentElapsedSeconds
             lastStationName := segNameAt (min newCompleted 15) }]
        splits := s.splits ++ [newSplit] }

/-- Embedding of `undoSegment` (dashboard store lines 99-120): no-op without
a user, at 0 completed segments or with no splits; otherwise pops the last
split and rolls the user back to the previous split's elapsed time. -/
def undoSegment (s : DashboardState) : DashboardState :=
  match s.participants with
  | [] => s
  | user :: _ =>
    if user.segmentsCompleted ≤ 0 then s
    else if s.splits.length = 0 then s
    else
      let newSplits := s.splits.dropLast
      let newCompleted := user.segmentsCompleted - 1
      let prevElapsed := lastElapsed newSplits
      { s with
        participants :=
          [{ user with
             segmentsCompleted := newCompleted
             currentSegmentIndex := newCompleted
             elapsedSeconds := prevElapsed
             lastStationName := segNameAt newCompleted }]
        splits := newSplits }

/-- States reachable from `initLiveRace` by any sequence of `advanceSegment`
and `undoSegment` calls (the scope of the claim: no intervening
`updateElapsed` ticks). -/
inductive DashReachable : DashboardState → Prop
  | init (displayName : String) : DashReachable (initLiveRace displayName)
  | advance (t : ℤ) (s : DashboardState) :
      DashReachable s → DashReachable (advanceSegment t s)
  | undo (s : DashboardState) : DashReachable s → DashReachable (undoSegment s)

/-- The user's `segmentsCompleted`, 0 when no participant exists. -/
def completedOf (s : DashboardState) : ℤ :=
  match s.participants with
  | user :: _ => user.segmentsCompleted
  | [] => 0

/-- Invariant of the dashboard store under `advanceSegment`/`undoSegment`:
exactly one participant, whose completed count stays in [0, 16] and equals
the number of recorded splits, whose segment index and station name track
`min completed 15`, and whose elapsed time is the last split's recorded
elapsed time (0 with no splits). -/
def DashInv (s : DashboardState) : Prop :=
  ∃ u, s.participants = [u] ∧
    0 ≤ u.segmentsCompleted ∧ u.segmentsCompleted ≤ 16 ∧
    u.currentSegmentIndex = min u.segmentsCompleted 15 ∧
    u.elapsedSeconds = lastElapsed s.splits ∧
    u.lastStationName = segNameAt (min u.segmentsCompleted 15) ∧
    (s.splits.length : ℤ) = u.segmentsCompleted

/-!
Embedding of the CoachEngine module: the priority-ordered `evaluate` rules.
-/

/-- The CoachEngine `RaceState` input. -/
structure RaceState where
  currentSegmentIndex : ℤ
  currentSegmentType : String
  elapsedSeconds : D
  targetElapsedSeconds : D
  currentHR : Option D
  maxHR : Option D
  competitorDelta : Option D

/-- Coach tip priority. -/
inductive CoachPriority
  | critical
  | warning
  | info
  deriving DecidableEq

/-- The `CoachTip` record returned by `evaluate`. -/
structure CoachTip where
  message : String
  priority : CoachPriority
  context : String
  deriving DecidableEq

/-- The `SEGMENT_TIPS` record of the default rule. -/
def SEGMENT_TIPS : List (String × String) :=
  [("RUN", "Steady rhythm, controlled breathing."),
   ("SKI_ERG", "Powerful pulls, pace the first 500m."),
   ("SLED_PUSH", "Stay low, drive through your legs."),
   ("SLED_PULL", "Hand over hand rhythm, steady pace."),
   ("BURPEE_BROAD_JUMP", "Controlled jumps, land soft."),
   ("ROW", "Strong drive, quick recovery."),
   ("FARMERS_CARRY", "Grip and go, short quick steps."),
   ("SANDBAG_LUNGES", "Step through, keep bag stable."),
   ("WALL_BALLS", "Catch and throw rhythm, break at 10s.")]

/-- The ratio `currentHR && maxHR ? currentHR / maxHR : 0` — JS truthiness
makes a null or zero heart-rate value yield 0 (NaN inputs do not arise). -/
def coachHrPct (s : RaceState) : D :=
  match s.currentHR, s.maxHR with
  | some h, some m => if h = dOfInt 0 ∨ m = dOfInt 0 then dOfInt 0 else dDiv h m
  | _, _ => dOfInt 0

/-- The pacing delta `elapsedSeconds - targetElapsedSeconds`. -/
def deltaSeconds (s : RaceState) : D :=
  dSub s.elapsedSeconds s.targetElapsedSeconds

/-- Condition of coach rule `i` (0-based: rules 1-6 of the source), exactly
the guards of the `evaluate` if-chain; rule index 5 is the default. -/
def coachCond : ℕ → RaceState → Prop
  | 0, s => dLe (mkD 93 100) (coachHrPct s)
  | 1, s => dLt (deltaSeconds s) (dOfInt (-30)) ∧ s.currentSegmentIndex < 6
  | 2, s => dLt (dOfInt 20) (deltaSeconds s)
  | 3, s => dLe (mkD 85 100) (coachHrPct s) ∧ dLt (coachHrPct s) (mkD 93 100)
  | 4, s => ∃ dd, s.competitorDelta = some dd ∧ dLt (dOfInt 15) dd
  | _, _ => True

/-- The tip each rule returns (the value of `coachOutcome 4` is only
meaningful when `competitorDelta` is non-null, as rule 5's guard ensures). -/
def coachOutcome : ℕ → RaceState → CoachTip
  | 0, s =>
    { message := "HR critical -- walk first 100m after station."
      priority := .critical
      context := "HR at " ++ toString (jsRound (dMul (coachHrPct s) (dOfInt 100))) ++ "% of max" }
  | 1, s =>
    { message := toString (jsRound (deltaSeconds s)).natAbs ++ "s ahead -- hold back. Save for Run 5+."
      priority := .warning
      context := "Pacing too fast early" }
  | 2, s =>
    { message := toString (jsRound (deltaSeconds s)) ++ "s behind. Steady effort, don\x27t panic."
      priority := .warning
      context := "Behind target pace" }
  | 3, s =>
    { message := "HR elevated. Controlled breathing."
      priority := .info
      context := "HR at " ++ toString (jsRound (dMul (coachHrPct s) (dOfInt 100))) ++ "% of max" }
  | 4, s =>
    { message := "Competitor " ++ toString (jsRound ((s.competitorDelta).getD (dOfInt 0))) ++ "s ahead. Stick to YOUR plan."
      priority := .info
      context := "Competitor gap" }
  | _, s =>
    { message := (SEGMENT_TIPS.lookup s.currentSegmentType).getD "Stay focused, keep moving."
      priority := .info
      context := "Segment " ++ toString (s.currentSegmentIndex + 1) ++ "/16" }

/-- Embedding of CoachEngine `evaluate`: the priority-ordered if-chain,
first match wins. -/
def evaluate (s : RaceState) : CoachTip :=
  if dLe (mkD 93 100) (coachHrPct s) then coachOutcome 0 s
  else if dLt (deltaSeconds s) (dOfInt (-30)) ∧ s.currentSegmentIndex < 6 then coachOutcome 1 s
  else if dLt (dOfInt 20) (deltaSeconds s) then coachOutcome 2 s
  else if dLe (mkD 85 100) (coachHrPct s) ∧ dLt (coachHrPct s) (mkD 93 100) then coachOutcome 3 s
  else
    match s.competitorDelta with
    | some dd => if dLt (dOfInt 15) dd then coachOutcome 4 s else coachOutcome 5 s
    | none => coachOutcome 5 s

/-!
Embedding of `src/mobile/src/store/raceStore.ts`: the live race timer state
machine.  `Date.now()` becomes an explicit `now : ℤ` (milliseconds) argument;
`selectedRace` and the persistence side effects are not read by the verified
actions and are omitted.
-/

/-- The `LiveStatus` union of raceStore.ts. -/
inductive LiveStatus
  | idle
  | running
  | paused
  | finished
  deriving DecidableEq

/-- The `RacePhase` union of raceStore.ts. -/
inductive RacePhase
  | no_race
  | countdown
  | race_day
  deriving DecidableEq

/-- The race store fields the verified actions read and write. -/
structure RaceStoreState where
  liveStatus : LiveStatus
  raceStartedAt : Option ℤ
  racePausedElapsed : ℤ
  totalElapsedSeconds : ℤ
  phase : RacePhase
  deriving DecidableEq

/-- JS truthiness of `raceStartedAt`: null and 0 are both falsy. -/
def startedAtTruthy : Option ℤ → Option ℤ
  | some t => if t = 0 then none else some t
  | none => none

/-- Embedding of `startRace` (lines 79-87): unconditionally sets `running`. -/
def startRace (now : ℤ) (s : RaceStoreState) : RaceStoreState :=
  { s with
    liveStatus := .running
    raceStartedAt := some now
    racePausedElapsed := 0
    totalElapsedSeconds := 0
    phase := .race_day }

/-- Embedding of `pauseRace` (lines 89-98): no-op when `raceStartedAt` is
falsy, else banks the running time and pauses. -/
def pauseRace (now : ℤ) (s : RaceStoreState) : RaceStoreState :=
  match startedAtTruthy s.raceStartedAt with
  | none => s
  | some t =>
    { s with
      liveStatus := .paused
      racePausedElapsed := s.racePausedElapsed + (now - t)
      raceStartedAt := none }

/-- Embedding of `resumeRace` (lines 100-105): unconditionally sets
`running`. -/
def resumeRace (now : ℤ) (s : RaceStoreState) : RaceStoreState :=
  { s with liveStatus := .running, raceStartedAt := some now }

/-- Embedding of `finishRace` (lines 107-119): captures the final elapsed
time and sets the `finished` status, clearing `raceStartedAt`. -/
def finishRace (now : ℤ) (s : RaceStoreState) : RaceStoreState :=
  let totalMs := s.racePausedElapsed +
    (match startedAtTruthy s.raceStartedAt with
     | some t => now - t
     | none => 0)
  { s with
    liveStatus := .finished
    raceStartedAt := none
    totalElapsedSeconds := jsFloor (dDiv (dOfInt totalMs) (dOfInt 1000)) }

/-- Embedding of `tickElapsed` (lines 121-126): no-op unless running with a
truthy `raceStartedAt`. -/
def tickElapsed (now : ℤ) (s : RaceStoreState) : RaceStoreState :=
  if s.liveStatus = .running then
    match startedAtTruthy s.raceStartedAt with
    | some t =>
      { s with
        totalElapsedSeconds := jsFloor (dDiv (dOfInt (s.racePausedElapsed + (now - t))) (dOfInt 1000)) }
    | none => s
  else s

/-!
Concrete inputs used by the scenario theorems, counterexamples and witnesses.
-/

/-- The Scenario A profile: 25:00 five-k, manageable sleds, 25 unbroken wall
balls. -/
def profileScenarioA : AthleteProfile :=
  { five_k_time_seconds := dOfInt 1500
    sled_comfort := .manageable
    wall_ball_unbroken_max := dOfInt 25 }

/-- A profile whose goal-mode scale-factor denominator is exactly zero: the
negative five-k time makes the eight rounded run slots sum to -2076, which
cancels the 2076 seconds of station slots, so `predictedTotal` equals the
roxzone overhead. -/
def profileDegenerate : AthleteProfile :=
  { five_k_time_seconds := dOfInt (-1006)
    sled_comfort := .soul_crushing
    wall_ball_unbroken_max := dOfInt 25 }

/-- A malformed profile: non-positive `five_k_time_seconds`. -/
def profileMalformed : AthleteProfile :=
  { five_k_time_seconds := dOfInt (-60)
    sled_comfort := .manageable
    wall_ball_unbroken_max := dOfInt 25 }

/-- Every string `getTrackPosition` can place in `currentActivity`:
"Finished", the "Unknown" fallback, or one of the sixteen segment
activities — never the JS `undefined`. -/
def trackActivityStrings : List String :=
  "Finished" :: "Unknown" :: SEGMENT_ACTIVITIES.map Prod.snd

/-- The start-of-track position (station 0, continuous position 0). -/
def trackStartPosition : TrackPosition :=
  { stationIndex := 0
    lapFraction := dOfInt 0
    continuousPosition := dOfInt 0
    isFinished := false
    currentActivity := "Run 1" }

/-- The finished position (station 7, continuous position 8). -/
def trackFinishedPosition : TrackPosition :=
  { stationIndex := 7
    lapFraction := dOfInt 1
    continuousPosition := dOfInt 8
    isFinished := true
    currentActivity := "Finished" }

/-- A race state in which both the critical heart-rate rule (ratio 0.95)
and the competitor-gap rule (delta 20 s) hold simultaneously. -/
def coachStateBoth : RaceState :=
  { currentSegmentIndex := 2
    currentSegmentType := "RUN"
    elapsedSeconds := dOfInt 100
    targetElapsedSeconds := dOfInt 100
    currentHR := some (dOfInt 95)
    maxHR := some (dOfInt 100)
    competitorDelta := some (dOfInt 20) }

/-- A finished race-store session: started at t = 1000 ms and finished at
t = 61000 ms. -/
def finishedSession : RaceStoreState :=
  finishRace 61000 (startRace 1000
    { liveStatus := .idle
      raceStartedAt := none
      racePausedElapsed := 0
      totalElapsedSeconds := 0
      phase := .no_race })

/-!
Helper lemmas shared by the claim theorems.
-/

/-- The denominator of a `D` value's exact fraction is positive. -/
theorem toPair_den_pos (d : D) : 0 < (toPair d).2 := by
  unfold toPair
  split
  · simp
  · simp

/-- A defaulted association-list lookup yields the default or a stored
value. -/
theorem lookup_getD_mem (l : List (D × String)) (q : D) (dflt : String) :
    ((l.lookup q).getD dflt) ∈ dflt :: l.map Prod.snd := by
  induction l with
  | nil => simp
  | cons hd tl ih =>
    simp only [List.lookup]
    by_cases h : q == hd.1
    · simp [h]
    · simp only [h]
      rcases List.mem_cons.mp ih with h1 | h2
      · simp [h1]
      · simp [h2]

/-- Mantissa sign of a conditional between two `D` values. -/
theorem ite_D_m_nonneg (c : Prop) [Decidable c] (a b : D) (ha : 0 ≤ a.m)
    (hb : 0 ≤ b.m) : 0 ≤ (if c then a else b).m := by
  split
  · exact ha
  · exact hb

/-- Rounding a nonnegative fraction yields a nonnegative mantissa. -/
theorem mkD_m_nonneg (num den : ℤ) (hn : 0 ≤ num) (hd : 0 < den) :
    0 ≤ (mkD num den).m := by
  unfold mkD
  by_cases h0 : num = 0
  · simp [h0]
  · have hs : ¬ num * den < 0 := by nlinarith
    simp only [h0, if_neg hs, if_false]
    apply ite_D_m_nonneg
    · positivity
    · positivity

/-- A nonnegative mantissa gives a nonnegative exact numerator. -/
theorem toPair_num_nonneg (d : D) (h : 0 ≤ d.m) : 0 ≤ (toPair d).1 := by
  unfold toPair
  split <;> simp <;> positivity

/-- Flooring a value with nonnegative numerator is nonnegative. -/
theorem jsFloor_nonneg (d : D) (h : 0 ≤ (toPair d).1) : 0 ≤ jsFloor d := by
  unfold jsFloor
  exact Int.fdiv_nonneg h (le_of_lt (toPair_den_pos d))

/-- The floored half of a nonnegative double is nonnegative. -/
theorem dDiv_two_floor_nonneg (x : D) (h : 0 ≤ (toPair x).1) :
    0 ≤ jsFloor (dDiv x (dOfInt 2)) := by
  apply jsFloor_nonneg
  apply toPair_num_nonneg
  show 0 ≤ (dDiv x (dOfInt 2)).m
  have h2 : toPair (dOfInt 2) = (4503599627370496, 2251799813685248) := by decide
  unfold dDiv
  rw [h2]
  simp only
  rw [if_neg (by norm_num)]
  apply mkD_m_nonneg
  · positivity
  · have := toPair_den_pos x
    positivity

/-- Appending a split makes it the last one. -/
theorem lastElapsed_concat (l : List SegmentSplit) (a : SegmentSplit) :
    lastElapsed (l ++ [a]) = a.elapsedAtCompletion := by
  unfold lastElapsed
  rw [List.getLast?_concat]

/-- The initial live-race state satisfies the dashboard invariant. -/
theorem dashInv_init (dn : String) : DashInv (initLiveRace dn) := by
  refine ⟨_, rfl, ?_, ?_, ?_, ?_, ?_, ?_⟩ <;> simp [initLiveRace, lastElapsed]

/-- The dashboard invariant is preserved by `advanceSegment`. -/
theorem dashInv_advance (t : ℤ) (s : DashboardState) (h : DashInv s) :
    DashInv (advanceSegment t s) := by
  obtain ⟨u, hp, h0, h16, hidx, hel, hname, hlen⟩ := h
  obtain ⟨parts, act, spl⟩ := s
  simp only at hp hel hlen
  subst hp
  simp only [advanceSegment]
  by_cases hguard : 16 ≤ u.segmentsCompleted
  · rw [if_pos hguard]
    exact ⟨u, rfl, h0, h16, hidx, hel, hname, hlen⟩
  · rw [if_neg hguard]
    refine ⟨_, rfl, by dsimp only; omega, by dsimp only; omega, rfl, ?_, rfl, ?_⟩
    · dsimp only
      rw [lastElapsed_concat]
    · dsimp only
      simp only [List.length_append, List.length_cons, List.length_nil]
      push_cast
      omega

/-- The dashboard invariant is preserved by `undoSegment`. -/
theorem dashInv_undo (s : DashboardState) (h : DashInv s) :
    DashInv (undoSegment s) := by
  obtain ⟨u, hp, h0, h16, hidx, hel, hname, hlen⟩ := h
  obtain ⟨parts, act, spl⟩ := s
  simp only at hp hel hlen
  subst hp
  simp only [undoSegment]
  by_cases hg1 : u.segmentsCompleted ≤ 0
  · rw [if_pos hg1]
    exact ⟨u, rfl, h0, h16, hidx, hel, hname, hlen⟩
  · rw [if_neg hg1]
    by_cases hg2 : spl.length = 0
    · rw [if_pos hg2]
      exact ⟨u, rfl, h0, h16, hidx, hel, hname, hlen⟩
    · rw [if_neg hg2]
      have hmin : min (u.segmentsCompleted - 1) 15 = u.segmentsCompleted - 1 := by omega
      refine ⟨_, rfl, by dsimp only; omega, by dsimp only; omega, ?_, rfl, ?_, ?_⟩
      · dsimp only
        rw [hmin]
      · dsimp only
        rw [hmin]
      · dsimp only
        simp only [List.length_dropLast]
        omega

/-- Every reachable dashboard state satisfies the invariant. -/
theorem dashReachable_inv (s : DashboardState) (h : DashReachable s) : DashInv s := by
  induction h with
  | init dn => exact dashInv_init dn
  | advance t s hs ih => exact dashInv_advance t s ih
  | undo s hs ih => exact dashInv_undo s ih

/-- One detector step fires nothing and keeps the start time inside the
stream's time set, whenever every pair of involved timestamps is less than
120 s apart. -/
theorem recordHRSample_short (st : Option ℤ) (smp : HRSample) (T : List ℤ)
    (htm : smp.time ∈ T)
    (hst : st = none ∨ ∃ t ∈ T, st = some t)
    (hspan : ∀ t1 ∈ T, ∀ t2 ∈ T, t2 - t1 < 120000) :
    (recordHRSample st smp.currentHR smp.maxHR smp.time).2 = none ∧
    ((recordHRSample st smp.currentHR smp.maxHR smp.time).1 = none ∨
      ∃ t ∈ T, (recordHRSample st smp.currentHR smp.maxHR smp.time).1 = some t) := by
  obtain ⟨hr, mx, tm⟩ := smp
  simp only at htm
  rcases hr with _ | hrv
  · exact ⟨rfl, Or.inl rfl⟩
  rcases mx with _ | mxv
  · exact ⟨rfl, Or.inl rfl⟩
  simp only [recordHRSample]
  by_cases h1 : dLe mxv (dOfInt 0)
  · rw [if_pos h1]
    exact ⟨rfl, Or.inl rfl⟩
  rw [if_neg h1]
  by_cases h2 : dLt (dDiv hrv mxv) (mkD 95 100)
  · rw [if_pos h2]
    exact ⟨rfl, Or.inl rfl⟩
  rw [if_neg h2]
  rcases st with _ | start
  · exact ⟨rfl, Or.inr ⟨tm, htm, rfl⟩⟩
  · dsimp only
    have hstart : start ∈ T := by
      rcases hst with h | ⟨t, htT, heq⟩
      · exact absurd h (by simp)
      · rw [Option.some_inj] at heq
        rw [heq]
        exact htT
    have hlt : ¬ (2 * 60 * 1000 ≤ tm - start) := by
      have := hspan start hstart tm htm
      omega
    rw [if_neg hlt]
    exact ⟨rfl, Or.inr ⟨start, hstart, rfl⟩⟩

/-- A sample stream whose timestamps all lie less than 120 s apart never
fires an alert, from a reset start state. -/
theorem runStream_short_no_alert (ss : List HRSample) (st : Option ℤ) (T : List ℤ)
    (hsub : ∀ smp ∈ ss, smp.time ∈ T)
    (hst : st = none ∨ ∃ t ∈ T, st = some t)
    (hspan : ∀ t1 ∈ T, ∀ t2 ∈ T, t2 - t1 < 120000) :
    (runStream ss st).2 = [] := by
  induction ss generalizing st with
  | nil => rfl
  | cons smp rest ih =>
    have hstep := recordHRSample_short st smp T (hsub smp (List.mem_cons_self smp rest)) hst hspan
    simp only [runStream]
    rw [hstep.1]
    simp only [List.nil_append]
    exact ih _ (fun x hx => hsub x (List.mem_cons_of_mem smp hx)) hstep.2

/-!
Claim theorems.
-/

/-- C1 counterexample: for the Scenario A profile the simulation charges the
intermediate tier a 420-second roxzone overhead, not 300, and its
`likely_seconds` prediction is not the claimed 5354 seconds. -/
theorem c1_counterexample :
    (generateMockSimulation profileScenarioA none).total_roxzone_time_seconds = 420 ∧
    (generateMockSimulation profileScenarioA none).predictions.likely_seconds ≠ dOfInt 5354 := by
  constructor
  · decide
  · decide

/-- C1 (amended): for the prediction-mode profile `{five_k_time_seconds:
1500, sled_comfort: manageable, wall_ball_unbroken_max: 25}` the simulation
classifies the athlete as tier intermediate and returns a predicted total of
5473 seconds (the intermediate tier pays the 420-second roxzone overhead of
the `else` branch), conservative 5747 s, aggressive 5199 s, danger_runs
[5, 8], primary_limiter "pacing" and blow_up_probability 0.3. -/
theorem c1_prediction_scenario :
    (generateMockSimulation profileScenarioA none).estimated_tier = .intermediate ∧
    (generateMockSimulation profileScenarioA none).predictions.likely_seconds = dOfInt 5473 ∧
    (generateMockSimulation profileScenarioA none).predictions.predicted_finish_seconds = 5473 ∧
    (generateMockSimulation profileScenarioA none).total_roxzone_time_seconds = 420 ∧
    (generateMockSimulation profileScenarioA none).predictions.conservative_seconds = dOfInt 5747 ∧
    (generateMockSimulation profileScenarioA none).predictions.aggressive_seconds = dOfInt 5199 ∧
    (generateMockSimulation profileScenarioA none).risk_analysis.danger_runs = [5, 8] ∧
    (generateMockSimulation profileScenarioA none).risk_analysis.primary_limiter = "pacing" ∧
    (generateMockSimulation profileScenarioA none).risk_analysis.blow_up_probability = mkD 3 10 ∧
    (generateMockSimulation profileScenarioA none).mode = .prediction := by
  refine ⟨by decide, by decide, by decide, by decide, by decide, by decide, ?_, ?_, by decide, by decide⟩
  · decide
  · decide

/-- C2: in goal mode (any profile, any positive goal time) all three returned
prediction tiers equal the goal time itself. -/
theorem c2_goal_mode_predictions (p : AthleteProfile) (g : D)
    (hg : dLt (dOfInt 0) g) :
    (generateMockSimulation p (some g)).predictions.conservative_seconds = g ∧
    (generateMockSimulation p (some g)).predictions.likely_seconds = g ∧
    (generateMockSimulation p (some g)).predictions.aggressive_seconds = g := by
  simp only [generateMockSimulation]
  rw [if_pos hg]
  exact ⟨rfl, rfl, rfl⟩

/-- C2 witness: the Scenario A profile with a 90-minute goal. -/
theorem c2_witness :
    (generateMockSimulation profileScenarioA (some (dOfInt 5400))).predictions.conservative_seconds = dOfInt 5400 ∧
    (generateMockSimulation profileScenarioA (some (dOfInt 5400))).predictions.likely_seconds = dOfInt 5400 ∧
    (generateMockSimulation profileScenarioA (some (dOfInt 5400))).predictions.aggressive_seconds = dOfInt 5400 :=
  c2_goal_mode_predictions profileScenarioA (dOfInt 5400) (by decide)

/-- C3 counterexample: a goal-mode request whose scale-factor denominator
`predictedTotal - roxzoneTime` is exactly zero is still answered with a
`RaceSimulation` — no computation error is signalled (the source divides
unguarded; in JS the division yields Infinity). -/
theorem c3_counterexample :
    dLt (dOfInt 0) (dOfInt 3600) ∧
    dSub (dOfInt (predictedTotal profileDegenerate))
      (dOfInt (roxzoneTime (estimatedTier profileDegenerate))) = dOfInt 0 ∧
    (runSimulation profileDegenerate (some (dOfInt 3600))).isOk = true := by
  refine ⟨by decide, ?_, by decide⟩
  decide

/-- C3 (amended): the goal-mode simulation never rejects with a computation
error; every goal-mode request — including one whose scale-factor denominator
is zero — resolves successfully, because the source performs the division
without any guard. -/
theorem c3_goal_mode_never_rejects (p : AthleteProfile) (g : D)
    (_hg : dLt (dOfInt 0) g) :
    (runSimulation p (some g)).isOk = true := rfl

/-- C3 witness: the degenerate-denominator profile in goal mode. -/
theorem c3_witness :
    (runSimulation profileDegenerate (some (dOfInt 3600))).isOk = true :=
  c3_goal_mode_never_rejects profileDegenerate (dOfInt 3600) (by decide)

/-- C4 counterexample: a profile with a non-positive `five_k_time_seconds` is
not rejected — the mock simulation path still resolves with a
`RaceSimulation`. -/
theorem c4_counterexample :
    dLe profileMalformed.five_k_time_seconds (dOfInt 0) ∧
    (runSimulation profileMalformed none).isOk = true := by
  exact ⟨by decide, rfl⟩

/-- C4 (amended): the mock simulation performs no profile validation at all:
every malformed profile (non-positive five-k time or negative wall-ball
count) is processed and resolves successfully with a `RaceSimulation`. -/
theorem c4_no_validation (p : AthleteProfile) (g : Option D)
    (_hbad : dLe p.five_k_time_seconds (dOfInt 0) ∨ dLt p.wall_ball_unbroken_max (dOfInt 0)) :
    runSimulation p g = .ok ⟨generateMockSimulation p g⟩ := rfl

/-- C4 witness: the malformed profile is processed without rejection. -/
theorem c4_witness :
    runSimulation profileMalformed none = .ok ⟨generateMockSimulation profileMalformed none⟩ :=
  c4_no_validation profileMalformed none (Or.inl (by decide))

/-- C9 counterexample: from a finished session, `startRace` and `resumeRace`
move `liveStatus` away from `finished` (to `running`), so `finished` is not
terminal against them. -/
theorem c9_counterexample :
    finishedSession.liveStatus = .finished ∧
    (startRace 120000 finishedSession).liveStatus = .running ∧
    (resumeRace 120000 finishedSession).liveStatus = .running := by
  refine ⟨?_, rfl, rfl⟩
  decide

/-- C9 (amended): `finishRace` always leaves the session finished with a
cleared `raceStartedAt`; on such a finished session `pauseRace` and
`tickElapsed` are exact no-ops, but `startRace` and `resumeRace`
unconditionally set `liveStatus` back to `running` — only they (besides the
explicit new-race resets) exit the finished state. -/
theorem c9_finished_transitions (s : RaceStoreState) (now : ℤ)
    (hstatus : s.liveStatus = .finished) (hstart : s.raceStartedAt = none) :
    ((finishRace now s).liveStatus = .finished ∧ (finishRace now s).raceStartedAt = none) ∧
    (pauseRace now s = s ∧ tickElapsed now s = s) ∧
    ((startRace now s).liveStatus = .running ∧ (resumeRace now s).liveStatus = .running) := by
  refine ⟨⟨rfl, rfl⟩, ⟨?_, ?_⟩, rfl, rfl⟩
  · simp [pauseRace, hstart, startedAtTruthy]
  · simp [tickElapsed, hstatus]

/-- C9 witness: the concrete finished session is left unchanged by
`pauseRace` and `tickElapsed`, and restarted by `startRace`. -/
theorem c9_witness :
    (pauseRace 99000 finishedSession = finishedSession ∧
      tickElapsed 99000 finishedSession = finishedSession) ∧
    (startRace 99000 finishedSession).liveStatus = .running :=
  ⟨(c9_finished_transitions finishedSession 99000 (by decide) (by decide)).2.1,
   (c9_finished_transitions finishedSession 99000 (by decide) (by decide)).2.2.1⟩

/-- C6: over the whole 0-16 domain of `segmentsCompleted`, `getTrackPosition`
is monotone non-decreasing in the completed count; its continuous position is
`floor(completed / 2)` plus one half exactly when the count is odd; the
continuous position stays within [0, 8]; and `isFinished` holds exactly at
16 completed segments. -/
theorem c6_track_position :
    ∀ c d : Fin 17,
      (c ≤ d →
        dLe (getTrackPosition (dOfInt c.val)).continuousPosition
          (getTrackPosition (dOfInt d.val)).continuousPosition) ∧
      (getTrackPosition (dOfInt c.val)).continuousPosition =
        dAdd (dOfInt (c.val / 2)) (if c.val % 2 = 1 then mkD 1 2 else dOfInt 0) ∧
      dLe (dOfInt 0) (getTrackPosition (dOfInt c.val)).continuousPosition ∧
      dLe (getTrackPosition (dOfInt c.val)).continuousPosition (dOfInt 8) ∧
      ((getTrackPosition (dOfInt c.val)).isFinished = true ↔ c.val = 16) := by
  decide

/-- C6 witness: monotone step from 1 to 2 completed segments. -/
theorem c6_witness :
    dLe (getTrackPosition (dOfInt ((1 : Fin 17).val))).continuousPosition
      (getTrackPosition (dOfInt ((2 : Fin 17).val))).continuousPosition :=
  (c6_track_position 1 2).1 (by decide)

/-- C10: `getTrackPosition` is total over every double input: it clamps to
[0, 16] first, so every negative input yields the start position (station 0,
continuous position 0, not finished, activity "Run 1") and every input above
16 yields the finished position (station 7, continuous position 8,
finished); the station index always stays within [0, 7] and the activity is
always one of the fixed strings, never undefined. -/
theorem c10_clamping :
    ∀ x : D,
      (dLt x (dOfInt 0) → getTrackPosition x = trackStartPosition) ∧
      (dLt (dOfInt 16) x → getTrackPosition x = trackFinishedPosition) ∧
      (0 ≤ (getTrackPosition x).stationIndex ∧ (getTrackPosition x).stationIndex ≤ 7) ∧
      (getTrackPosition x).currentActivity ∈ trackActivityStrings := by
  intro x
  have h0p : toPair (dOfInt 0) = (0, 1) := by decide
  have h16p : toPair (dOfInt 16) = (4503599627370496, 281474976710656) := by decide
  have hdenx := toPair_den_pos x
  by_cases hneg : dLt x (dOfInt 0)
  · -- negative input: the clamp yields 0
    have hn : (toPair x).1 < 0 := by
      have hh := hneg
      unfold dLt at hh
      rw [h0p] at hh
      simpa using hh
    have h16x : ¬ dLt (dOfInt 16) x := by
      unfold dLt
      rw [h16p]
      simp only [not_lt]
      nlinarith
    have h0x : ¬ dLt (dOfInt 0) x := by
      unfold dLt
      rw [h0p]
      simp only [not_lt]
      nlinarith
    have hcl : dMax (dOfInt 0) (dMin (dOfInt 16) x) = dOfInt 0 := by
      unfold dMin dMax
      rw [if_neg h16x, if_neg h0x]
    refine ⟨fun _ => ?_, fun hb => absurd hb h16x, ?_, ?_⟩
    · unfold getTrackPosition
      rw [hcl]
      decide
    · unfold getTrackPosition
      rw [hcl]
      decide
    · unfold getTrackPosition
      rw [hcl]
      decide
  · by_cases hbig : dLt (dOfInt 16) x
    · -- large input: the clamp yields 16
      have hcl : dMax (dOfInt 0) (dMin (dOfInt 16) x) = dOfInt 16 := by
        unfold dMin dMax
        rw [if_pos hbig]
        rw [if_pos (show dLt (dOfInt 0) (dOfInt 16) by decide)]
      refine ⟨fun hb => absurd hb hneg, fun _ => ?_, ?_, ?_⟩
      · unfold getTrackPosition
        rw [hcl]
        decide
      · unfold getTrackPosition
        rw [hcl]
        decide
      · unfold getTrackPosition
        rw [hcl]
        decide
    · -- input already within range: the clamp is the input itself
      have hxnn : 0 ≤ (toPair x).1 := by
        have hh := hneg
        unfold dLt at hh
        rw [h0p] at hh
        simpa using hh
      have hcl : dMax (dOfInt 0) (dMin (dOfInt 16) x) = dMax (dOfInt 0) x := by
        unfold dMin
        rw [if_neg hbig]
      refine ⟨fun hb => absurd hb hneg, fun hb => absurd hb hbig, ?_, ?_⟩
      · unfold getTrackPosition
        rw [hcl]
        unfold dMax
        by_cases hpos : dLt (dOfInt 0) x
        · rw [if_pos hpos]
          dsimp only
          split
          · exact ⟨by norm_num, by norm_num⟩
          · constructor
            · exact le_inf (dDiv_two_floor_nonneg x hxnn) (by norm_num)
            · exact inf_le_right
        · rw [if_neg hpos]
          decide
      · unfold getTrackPosition
        rw [hcl]
        unfold dMax
        by_cases hpos : dLt (dOfInt 0) x
        · rw [if_pos hpos]
          dsimp only
          split
          · decide
          · dsimp only [activityAt]
            have hmem := lookup_getD_mem SEGMENT_ACTIVITIES x "Unknown"
            unfold trackActivityStrings
            exact List.mem_cons_of_mem _ hmem
        · rw [if_neg hpos]
          decide

/-- C10 witness: a negative input lands on the start position and an input
above 16 lands on the finished position. -/
theorem c10_witness :
    getTrackPosition (dOfInt (-3)) = trackStartPosition ∧
    getTrackPosition (dOfInt 20) = trackFinishedPosition :=
  ⟨(c10_clamping (dOfInt (-3))).1 (by decide),
   (c10_clamping (dOfInt 20)).2.1 (by decide)⟩

/-- C5: under every sequence of `advanceSegment`/`undoSegment` calls from the
initial live-race state, `segmentsCompleted` stays within [0, 16]; and on any
reachable state with fewer than 16 completed segments, `undoSegment` exactly
inverts `advanceSegment` — the full participant record and split list are
restored. -/
theorem c5_advance_undo (s : DashboardState) (h : DashReachable s) :
    (0 ≤ completedOf s ∧ completedOf s ≤ 16) ∧
    (∀ t : ℤ, completedOf s < 16 → undoSegment (advanceSegment t s) = s) := by
  obtain ⟨u, hp, h0, h16, hidx, hel, hname, hlen⟩ := dashReachable_inv s h
  obtain ⟨parts, act, spl⟩ := s
  simp only at hp hel hlen
  subst hp
  have hco : completedOf ⟨[u], act, spl⟩ = u.segmentsCompleted := rfl
  rw [hco]
  refine ⟨⟨h0, h16⟩, ?_⟩
  intro t hlt
  simp only [advanceSegment]
  rw [if_neg (by omega)]
  simp only [undoSegment]
  rw [if_neg (by omega)]
  rw [if_neg (by simp)]
  simp only [List.dropLast_concat]
  obtain ⟨uid, unm, uusr, uc, uidx, uel, unam⟩ := u
  simp only at h0 h16 hidx hel hname hlen hlt
  have hstep : uc + 1 - 1 = uc := by omega
  have hm : min uc 15 = uc := by omega
  simp only [hstep, hidx, hname, ← hel, hm]

/-- C5 witness: the freshly initialised live race advances and undoes back to
itself, with the completed count inside the bounds. -/
theorem c5_witness :
    (0 ≤ completedOf (initLiveRace "Athlete") ∧
      completedOf (initLiveRace "Athlete") ≤ 16) ∧
    undoSegment (advanceSegment 100 (initLiveRace "Athlete")) = initLiveRace "Athlete" :=
  ⟨(c5_advance_undo (initLiveRace "Athlete") (DashReachable.init "Athlete")).1,
   (c5_advance_undo (initLiveRace "Athlete") (DashReachable.init "Athlete")).2 100 (by decide)⟩

/-- C7 counterexample: one contiguous excursion — every sample's ratio 0.974
is at or above the 95% threshold — lasting 241 s fires TWO alerts, not
exactly one: the detector re-arms after each alert. -/
theorem c7_counterexample :
    (¬ dLt (dDiv (dOfInt 974) (dOfInt 1000)) (mkD 95 100)) ∧
    ((runStream contiguousStream none).2).length = 2 := by
  constructor
  · decide
  · decide

/-- C7 (amended): the redline detector never fires over a stream whose
samples all lie less than 120 s apart; a null heart rate or max resets the
accumulation to nothing immediately, as does any sub-threshold ratio sample;
and the Scenario C stream (ratio 0.974 sustained 125 s) fires exactly one
alert with duration 125 s and the default-severity recovery tip.  Each fired
alert resets the accumulation, so a contiguous excursion of 240 s or more
fires repeatedly rather than exactly once. -/
theorem c7_redline_detector :
    (∀ ss : List HRSample,
      (∀ t1 ∈ sampleTimes ss, ∀ t2 ∈ sampleTimes ss, t2 - t1 < 120000) →
      (runStream ss none).2 = []) ∧
    (∀ (st : Option ℤ) (mx : Option D) (now : ℤ),
      recordHRSample st none mx now = (none, none)) ∧
    (∀ (st : Option ℤ) (hr : Option D) (now : ℤ),
      recordHRSample st hr none now = (none, none)) ∧
    (∀ (st : Option ℤ) (hr mx : D) (now : ℤ),
      dLt (dDiv hr mx) (mkD 95 100) →
      recordHRSample st (some hr) (some mx) now = (none, none)) ∧
    (runStream scenarioCStream none).2 = [scenarioCAlert] := by
  refine ⟨?_, ?_, ?_, ?_, ?_⟩
  · intro ss hspan
    exact runStream_short_no_alert ss none (sampleTimes ss)
      (fun smp hs => List.mem_map_of_mem HRSample.time hs) (Or.inl rfl) hspan
  · intro st mx now
    rfl
  · intro st hr now
    cases hr <;> rfl
  · intro st hr mx now h
    simp only [recordHRSample]
    by_cases h1 : dLe mx (dOfInt 0)
    · rw [if_pos h1]
    · rw [if_neg h1, if_pos h]
  · decide

/-- C7 witness: a 60-second excursion fires nothing, and a sub-threshold
sample resets the detector. -/
theorem c7_witness :
    (runStream
      [{ currentHR := some (dOfInt 974), maxHR := some (dOfInt 1000), time := 0 },
       { currentHR := some (dOfInt 974), maxHR := some (dOfInt 1000), time := 60000 }]
      none).2 = [] ∧
    recordHRSample (some 0) (some (dOfInt 900)) (some (dOfInt 1000)) 60000 = (none, none) :=
  ⟨c7_redline_detector.1 _ (by decide),
   c7_redline_detector.2.2.2.1 (some 0) (dOfInt 900) (dOfInt 1000) 60000 (by decide)⟩

/-- C8: coach rule evaluation is strictly priority ordered with first match
winning — whenever the conditions of two rules hold and `i` is the lowest
rule index whose condition holds, `evaluate` returns rule `i`'s outcome; in
particular, whenever the heart-rate ratio reaches 93% the critical tip is
returned regardless of any other rule also holding. -/
theorem c8_coach_priority :
    (∀ (s : RaceState) (i j : ℕ), i < j → j ≤ 5 → coachCond i s → coachCond j s →
      (∀ k, k < i → ¬ coachCond k s) → evaluate s = coachOutcome i s) ∧
    (∀ s : RaceState, dLe (mkD 93 100) (coachHrPct s) → evaluate s = coachOutcome 0 s) := by
  have hcrit : ∀ s : RaceState, dLe (mkD 93 100) (coachHrPct s) → evaluate s = coachOutcome 0 s := by
    intro s h
    unfold evaluate
    rw [if_pos h]
  refine ⟨?_, hcrit⟩
  intro s i j hij hj5 hi hcj hmin
  have hi4 : i < 5 := lt_of_lt_of_le hij hj5
  have h0 : i > 0 → ¬ dLe (mkD 93 100) (coachHrPct s) := by
    intro hgt
    have := hmin 0 (by omega)
    simpa only [coachCond] using this
  have h1 : i > 1 → ¬ (dLt (deltaSeconds s) (dOfInt (-30)) ∧ s.currentSegmentIndex < 6) := by
    intro hgt
    have := hmin 1 (by omega)
    simpa only [coachCond] using this
  have h2 : i > 2 → ¬ dLt (dOfInt 20) (deltaSeconds s) := by
    intro hgt
    have := hmin 2 (by omega)
    simpa only [coachCond] using this
  have h3 : i > 3 → ¬ (dLe (mkD 85 100) (coachHrPct s) ∧ dLt (coachHrPct s) (mkD 93 100)) := by
    intro hgt
    have := hmin 3 (by omega)
    simpa only [coachCond] using this
  interval_cases i
  · exact hcrit s hi
  · simp only [coachCond] at hi
    unfold evaluate
    rw [if_neg (h0 (by omega)), if_pos hi]
  · simp only [coachCond] at hi
    unfold evaluate
    rw [if_neg (h0 (by omega)), if_neg (h1 (by omega)), if_pos hi]
  · simp only [coachCond] at hi
    unfold evaluate
    rw [if_neg (h0 (by omega)), if_neg (h1 (by omega)), if_neg (h2 (by omega)), if_pos hi]
  · simp only [coachCond] at hi
    obtain ⟨dd, hdd, hgt⟩ := hi
    unfold evaluate
    rw [if_neg (h0 (by omega)), if_neg (h1 (by omega)), if_neg (h2 (by omega)),
      if_neg (h3 (by omega)), hdd]
    dsimp only
    rw [if_pos hgt]

/-- C8 witness: with the critical heart-rate rule and the competitor-gap rule
both holding, the critical tip (rule 1) wins. -/
theorem c8_witness :
    evaluate coachStateBoth = coachOutcome 0 coachStateBoth :=
  c8_coach_priority.1 coachStateBoth 0 4 (by omega) (by omega)
    (by simp only [coachCond]; decide)
    ⟨dOfInt 20, rfl, by decide⟩
    (fun k hk => absurd hk (Nat.not_lt_zero k))

end HyroxPace
